import Mathlib

/-!
Shallow embedding of the `advanced-api-project` Django REST API
(models, serializers, filters and views for the Author/Book CRUD surface),
together with theorems checking the behavioural contract stated in the
project specification.

The data store is modelled as explicit lists of Author and Book records;
each request handler is a pure function from (authentication flag, request
data, store) to (HTTP response, store).

One decisive fact about the source is embedded as well: line 10 of
api/views.py (`from django_filters import rest_framework`) binds only the
name `rest_framework`, while the class body of the first class of the
module (`BookListView`, line 45) references `DjangoFilterBackend`.
Importing api.views therefore raises `NameError` before any view class is
created, and with it the `from . import views` in api/urls.py fails, so no
`/api/...` endpoint is ever served. The handler and list-pipeline
functions below model the declared configuration of the view classes —
what each endpoint is configured to do — while `viewsModuleBindings`,
`bookListViewReferencedNames` and `viewsModuleClasses` record the binding
structure of the module from which the failure follows.
-/

/-- Author record (api/models.py, `Author`): system-generated id plus a name. -/
structure Author where
  id : Nat
  name : String
deriving DecidableEq, Repr

/-- Book record (api/models.py, `Book`): id, title, integer publication
year and a foreign key to its Author (`on_delete=CASCADE`). -/
structure Book where
  id : Nat
  title : String
  publication_year : Int
  author : Nat
deriving DecidableEq, Repr

/-- The relational data store holding all Author and Book records. -/
structure Store where
  authors : List Author
  books : List Book
deriving DecidableEq, Repr

/-- Name of the author a book references, via the store (empty if the id is
dangling, which the write path never produces). -/
def authorName (s : Store) (aid : Nat) : String :=
  match s.authors.find? (fun a => a.id = aid) with
  | some a => a.name
  | none => ""

/-- Model-level cascade delete (api/models.py, `Book.author` with
`on_delete=models.CASCADE`): removing an Author also removes every Book
that references it. -/
def deleteAuthor (aid : Nat) (s : Store) : Store :=
  { authors := s.authors.filter (fun a => a.id ≠ aid),
    books := s.books.filter (fun b => b.author ≠ aid) }

/-! ### Serializer layer (api/serializers.py) -/

/-- The error message raised by `BookSerializer.validate_publication_year`
for a future year: the Python f-string
`f"Publication year cannot be in the future. Current year is {current_year}."`. -/
def futureMsg (currentYear : Int) : String :=
  "Publication year cannot be in the future. Current year is " ++ toString currentYear ++ "."

/-- Embedding of `BookSerializer.validate_publication_year`: rejects values
strictly greater than the current year, returns the value unchanged otherwise. -/
def validate_publication_year (currentYear : Int) (value : Int) : Except String Int :=
  if value > currentYear then Except.error (futureMsg currentYear)
  else Except.ok value

/-- Incoming payload for a book write (fields `title`, `publication_year`,
`author` of `BookSerializer`; `id` is read-only). -/
structure BookPayload where
  title : String
  publication_year : Int
  author : Nat
deriving DecidableEq, Repr

/-- Field-scoped validation errors produced by `BookSerializer` for a full
payload: title max length 200 (model `CharField`), the custom
publication-year rule, and existence of the referenced author
(`PrimaryKeyRelatedField`). -/
def bookFieldErrors (currentYear : Int) (s : Store) (p : BookPayload) :
    List (String × List String) :=
  (if p.title.length > 200 then
    [("title", ["Ensure this field has no more than 200 characters."])]
   else []) ++
  (match validate_publication_year currentYear p.publication_year with
   | Except.error m => [("publication_year", [m])]
   | Except.ok _ => []) ++
  (if s.authors.any (fun a => a.id = p.author) then []
   else [("author", ["Invalid pk - object does not exist."])])

/-- Field-scoped validation errors for the Author serializers: `name` has
max length 100; `books` is read-only so it never yields input errors. -/
def authorFieldErrors (name : String) : List (String × List String) :=
  if name.length > 100 then
    [("name", ["Ensure this field has no more than 100 characters."])]
  else []

/-! ### Filtering, searching and ordering (api/filters.py and BookListView) -/

/-- Case-insensitive substring test on the underlying character lists. -/
def containsAux : List Char → List Char → Bool
  | [], need => need.isEmpty
  | c :: rest, need => need.isPrefixOf (c :: rest) || containsAux rest need

/-- Lower-cased character list of a string. -/
def lowerChars (s : String) : List Char :=
  s.data.map Char.toLower

/-- Case-insensitive containment (the ORM `icontains` lookup). -/
def icontains (hay need : String) : Bool :=
  containsAux (lowerChars hay) (lowerChars need)

/-- Query parameters recognised by `BookFilter` (api/filters.py): `title`
and `author__name` are `icontains` filters, the year filters are exact /
inclusive-bound number filters. Absent parameters impose no constraint. -/
structure BookFilterParams where
  title : Option String := none
  author__name : Option String := none
  publication_year : Option Int := none
  publication_year__gte : Option Int := none
  publication_year__lte : Option Int := none
deriving DecidableEq, Repr

/-- Check an optional parameter: absent means no constraint. -/
def optCheck {α : Type} (o : Option α) (f : α → Bool) : Bool :=
  match o with
  | none => true
  | some v => f v

/-- Conjunction of all `BookFilter` predicates for one book (the filter set
composes its filters by logical AND). -/
def matchesFilterSet (s : Store) (p : BookFilterParams) (b : Book) : Bool :=
  optCheck p.title (fun v => icontains b.title v) &&
  optCheck p.author__name (fun v => icontains (authorName s b.author) v) &&
  optCheck p.publication_year (fun v => b.publication_year == v) &&
  optCheck p.publication_year__gte (fun v => decide (v ≤ b.publication_year)) &&
  optCheck p.publication_year__lte (fun v => decide (b.publication_year ≤ v))

/-- Split a character list at every comma or whitespace character. -/
def splitTermsAux : List Char → List (List Char)
  | [] => [[]]
  | c :: rest =>
    let ts := splitTermsAux rest
    if c = ',' || c.isWhitespace then [] :: ts
    else
      match ts with
      | [] => [[c]]
      | t :: rest' => (c :: t) :: rest'

/-- Search terms extracted by the framework search filter: the raw
parameter is split on commas and whitespace and empty pieces are dropped
(Python `param.replace(",", " ").split()`). -/
def searchTerms (v : String) : List String :=
  ((splitTermsAux v.data).filter (fun t => ¬ t.isEmpty)).map String.mk

/-- Search predicate over `search_fields = ['title', 'author__name']`:
every search term must match the title or the author name
case-insensitively (AND over terms, OR over the two fields). -/
def matchesSearch (s : Store) (q : Option String) (b : Book) : Bool :=
  match q with
  | none => true
  | some v =>
    (searchTerms v).all (fun t => icontains b.title t || icontains (authorName s b.author) t)

/-- Fields accepted by the ordering filter
(`ordering_fields = ['title', 'publication_year', 'author__name']`). -/
def orderingFields : List String := ["title", "publication_year", "author__name"]

/-- Split an ordering term into its field name and its direction: a single
leading `-` selects descending order. -/
def stripDesc (t : String) : String × Bool :=
  match t.data with
  | '-' :: rest => (String.mk rest, true)
  | _ => (t, false)

/-- Split a character list at every comma. -/
def splitCommaAux : List Char → List (List Char)
  | [] => [[]]
  | c :: rest =>
    let ts := splitCommaAux rest
    if c = ',' then [] :: ts
    else
      match ts with
      | [] => [[c]]
      | t :: rest' => (c :: t) :: rest'

/-- Strip leading and trailing whitespace from a character list. -/
def trimChars (l : List Char) : List Char :=
  ((l.dropWhile Char.isWhitespace).reverse.dropWhile Char.isWhitespace).reverse

/-- Ordering terms actually applied for a request: the comma-separated
parameter is trimmed and restricted to valid fields; when no valid term
remains (or the parameter is absent) the view default `ordering = ['title']`
is used. -/
def parseOrderingTerms (q : Option String) : List String :=
  match q with
  | none => ["title"]
  | some v =>
    let ts := (splitCommaAux v.data).map (fun t => String.mk (trimChars t))
    let valid := ts.filter (fun t => orderingFields.contains (stripDesc t).1)
    if valid.isEmpty then ["title"] else valid

/-- Strict lexicographic order on character lists (the collation the data
store uses for string columns). -/
def charsLt : List Char → List Char → Bool
  | [], [] => false
  | [], _ :: _ => true
  | _ :: _, [] => false
  | a :: as, b :: bs => decide (a < b) || (decide (a = b) && charsLt as bs)

/-- Sort key of a book under one ordering field, embedded into
`List Char × Int` (string fields use the first component, the year uses
the second). -/
def fieldKey (s : Store) (f : String) (b : Book) : List Char × Int :=
  if f = "title" then (b.title.data, 0)
  else if f = "publication_year" then ([], b.publication_year)
  else if f = "author__name" then ((authorName s b.author).data, 0)
  else ([], 0)

/-- Lexicographic strict order on sort keys. -/
def pairLt (a b : List Char × Int) : Bool :=
  charsLt a.1 b.1 || (decide (a.1 = b.1) && decide (a.2 < b.2))

/-- Strict comparison of two books under one ordering term (direction
applied). -/
def termLt (s : Store) (t : String) (b b' : Book) : Bool :=
  if (stripDesc t).2 then pairLt (fieldKey s (stripDesc t).1 b') (fieldKey s (stripDesc t).1 b)
  else pairLt (fieldKey s (stripDesc t).1 b) (fieldKey s (stripDesc t).1 b')

/-- Key equality of two books under one ordering term. -/
def termEq (s : Store) (t : String) (b b' : Book) : Bool :=
  decide (fieldKey s (stripDesc t).1 b = fieldKey s (stripDesc t).1 b')

/-- Non-strict lexicographic comparison of books under a list of ordering
terms (`order_by(*terms)`): earlier terms dominate, later terms break ties. -/
def booksLe (s : Store) : List String → Book → Book → Bool
  | [], _, _ => true
  | t :: ts, b, b' => termLt s t b b' || (termEq s t b b' && booksLe s ts b b')

/-- Stable sort of books by a list of ordering terms. -/
def sortByTerms (s : Store) (ts : List String) (bs : List Book) : List Book :=
  List.insertionSort (fun b b' => booksLe s ts b b' = true) bs

/-- Ordering backend for the book list: parse the request parameter, then
sort. -/
def applyOrdering (s : Store) (q : Option String) (bs : List Book) : List Book :=
  sortByTerms s (parseOrderingTerms q) bs

/-- The query-string inputs of the book list endpoint. -/
structure ListQuery where
  filters : BookFilterParams := {}
  search : Option String := none
  ordering : Option String := none
deriving DecidableEq, Repr

/-- Declared behaviour of GET `/api/books/` (`BookListView`, views.py
40-49): filter backends in declaration order — the filter set, then the
search filter, then the ordering filter. This configuration is never
actually served: the same class body names `DjangoFilterBackend`, which
the import statements of api/views.py leave unbound, so importing the
module raises `NameError` and the endpoint does not come into existence
(see `viewsModuleBindings` and `bookListViewReferencedNames` below). -/
def bookListGet (s : Store) (q : ListQuery) : List Book :=
  applyOrdering s q.ordering
    ((s.books.filter (fun b => matchesFilterSet s q.filters b)).filter
      (fun b => matchesSearch s q.search b))

/-! ### Import structure of api/views.py -/

/-- Module-level names bound by the import statements of api/views.py, in
source order: `from rest_framework import generics`;
`from rest_framework.permissions import IsAuthenticatedOrReadOnly,
IsAuthenticated, AllowAny`; `from django_filters import rest_framework`,
which binds only the name `rest_framework`; the line `from
rest_framework.filters import SearchFilter, OrderingFilter`; the line
`from .models import Author, Book`;
`from .serializers import AuthorSerializer, BookSerializer,
AuthorDetailSerializer`; and `from .filters import BookFilter`. -/
def viewsModuleBindings : List String :=
  ["generics", "IsAuthenticatedOrReadOnly", "IsAuthenticated", "AllowAny",
   "rest_framework", "SearchFilter", "OrderingFilter",
   "Author", "Book", "AuthorSerializer", "BookSerializer",
   "AuthorDetailSerializer", "BookFilter"]

/-- Names evaluated while executing the class statement of `BookListView`,
the first class of api/views.py: its base `generics.ListAPIView` and the
right-hand sides of `queryset`, `serializer_class`, `permission_classes`,
`filter_backends = [DjangoFilterBackend, SearchFilter, OrderingFilter]`,
`filterset_class`, `search_fields`, `ordering_fields` and `ordering`. A
name in this list that is missing from `viewsModuleBindings` raises
`NameError` when api.views is imported. -/
def bookListViewReferencedNames : List String :=
  ["generics", "Book", "BookSerializer", "AllowAny",
   "DjangoFilterBackend", "SearchFilter", "OrderingFilter", "BookFilter"]

/-- The class statements of api/views.py in source order: the class whose
body fails (`BookListView`) comes first, so none of the later view
classes — including every write view — is ever created either. -/
def viewsModuleClasses : List String :=
  ["BookListView", "BookDetailView", "BookCreateView", "BookUpdateView",
   "BookDeleteView", "AuthorListCreateView", "AuthorDetailView"]

/-! ### Write handlers (api/views.py) -/

/-- HTTP response: status code plus a body restricted to the field→messages
mapping relevant here (`detail` errors and field-scoped validation errors). -/
structure HttpResponse where
  status : Nat
  body : List (String × List String)
deriving DecidableEq, Repr

/-- Response produced by the framework when an `IsAuthenticated` permission
check fails for an unauthenticated caller. -/
def forbiddenResp : HttpResponse :=
  { status := 403, body := [("detail", ["Authentication credentials were not provided."])] }

/-- Response for a bad object id. -/
def notFoundResp : HttpResponse :=
  { status := 404, body := [("detail", ["Not found."])] }

/-- Next system-generated id for a list of existing ids. -/
def nextId (ids : List Nat) : Nat :=
  ids.foldr max 0 + 1

/-- Partial-update payload (PATCH): only supplied fields are validated and
applied. -/
structure BookPatch where
  title : Option String := none
  publication_year : Option Int := none
  author : Option Nat := none
deriving DecidableEq, Repr

/-- Field errors for a partial update: each check runs only when the field
was supplied. -/
def bookPatchErrors (currentYear : Int) (s : Store) (p : BookPatch) :
    List (String × List String) :=
  (match p.title with
   | some t =>
     if t.length > 200 then [("title", ["Ensure this field has no more than 200 characters."])]
     else []
   | none => []) ++
  (match p.publication_year with
   | some y =>
     match validate_publication_year currentYear y with
     | Except.error m => [("publication_year", [m])]
     | Except.ok _ => []
   | none => []) ++
  (match p.author with
   | some aid =>
     if s.authors.any (fun a => a.id = aid) then []
     else [("author", ["Invalid pk - object does not exist."])]
   | none => [])

/-- The write requests the API accepts (POST/PUT/PATCH/DELETE on books,
POST/PUT/DELETE on authors). -/
inductive WriteReq where
  | bookCreate (p : BookPayload)
  | bookUpdate (id : Nat) (p : BookPayload)
  | bookPatch (id : Nat) (p : BookPatch)
  | bookDelete (id : Nat)
  | authorCreate (name : String)
  | authorUpdate (id : Nat) (name : String)
  | authorDelete (id : Nat)
deriving DecidableEq, Repr

/-- The store mutation and response of each write handler once the
permission check has passed: serializer validation, then the single
persistence call (`perform_create` / `perform_update` / `perform_destroy`). -/
def performWrite (currentYear : Int) (r : WriteReq) (s : Store) : HttpResponse × Store :=
  match r with
  | WriteReq.bookCreate p =>
    let errs := bookFieldErrors currentYear s p
    if errs.isEmpty then
      ({ status := 201, body := [] },
       { s with books := s.books ++
          [{ id := nextId (s.books.map (fun b => b.id)), title := p.title,
             publication_year := p.publication_year, author := p.author }] })
    else ({ status := 400, body := errs }, s)
  | WriteReq.bookUpdate id p =>
    match s.books.find? (fun b => b.id = id) with
    | none => (notFoundResp, s)
    | some _ =>
      let errs := bookFieldErrors currentYear s p
      if errs.isEmpty then
        ({ status := 200, body := [] },
         { s with books := s.books.map (fun b =>
            if b.id = id then
              { b with title := p.title, publication_year := p.publication_year,
                       author := p.author }
            else b) })
      else ({ status := 400, body := errs }, s)
  | WriteReq.bookPatch id p =>
    match s.books.find? (fun b => b.id = id) with
    | none => (notFoundResp, s)
    | some _ =>
      let errs := bookPatchErrors currentYear s p
      if errs.isEmpty then
        ({ status := 200, body := [] },
         { s with books := s.books.map (fun b =>
            if b.id = id then
              { b with title := p.title.getD b.title,
                       publication_year := p.publication_year.getD b.publication_year,
                       author := p.author.getD b.author }
            else b) })
      else ({ status := 400, body := errs }, s)
  | WriteReq.bookDelete id =>
    match s.books.find? (fun b => b.id = id) with
    | none => (notFoundResp, s)
    | some _ =>
      ({ status := 204, body := [] }, { s with books := s.books.filter (fun b => b.id ≠ id) })
  | WriteReq.authorCreate name =>
    let errs := authorFieldErrors name
    if errs.isEmpty then
      ({ status := 201, body := [] },
       { s with authors := s.authors ++
          [{ id := nextId (s.authors.map (fun a => a.id)), name := name }] })
    else ({ status := 400, body := errs }, s)
  | WriteReq.authorUpdate id name =>
    match s.authors.find? (fun a => a.id = id) with
    | none => (notFoundResp, s)
    | some _ =>
      let errs := authorFieldErrors name
      if errs.isEmpty then
        ({ status := 200, body := [] },
         { s with authors := s.authors.map (fun a =>
            if a.id = id then { a with name := name } else a) })
      else ({ status := 400, body := errs }, s)
  | WriteReq.authorDelete id =>
    match s.authors.find? (fun a => a.id = id) with
    | none => (notFoundResp, s)
    | some _ => ({ status := 204, body := [] }, deleteAuthor id s)

/-- Declared write handler: every write view requires `IsAuthenticated`,
and the framework runs that permission check before anything else;
rejection short-circuits with a 403 `detail` response and touches nothing.
None of these views is actually created at runtime: api.views aborts on
the unbound `DjangoFilterBackend` in its first class body, before any
write view class executes (see `viewsModuleClasses`). -/
def handleWrite (auth : Bool) (currentYear : Int) (r : WriteReq) (s : Store) :
    HttpResponse × Store :=
  if auth then performWrite currentYear r s else (forbiddenResp, s)

/-! ### Author serialization (api/serializers.py, AuthorSerializer and
AuthorDetailSerializer) -/

/-- Books owned by an author, as the reverse relation `author.books.all()`
returns them (model `Meta.ordering = ['-publication_year', 'title']`). -/
def authorBooks (s : Store) (a : Author) : List Book :=
  sortByTerms s ["-publication_year", "title"] (s.books.filter (fun b => b.author = a.id))

/-- Output of `AuthorSerializer` (list/create context). -/
structure AuthorOut where
  id : Nat
  name : String
  books : List Book
deriving DecidableEq, Repr

/-- Output of `AuthorDetailSerializer` (detail context): adds the computed
`books_count`. -/
structure AuthorDetailOut where
  id : Nat
  name : String
  books : List Book
  books_count : Nat
deriving DecidableEq, Repr

/-- Serialize an author in list/create context. -/
def serializeAuthor (s : Store) (a : Author) : AuthorOut :=
  { id := a.id, name := a.name, books := authorBooks s a }

/-- The method behind `books_count` (`get_books_count`, i.e.
`obj.books.count()`). -/
def get_books_count (s : Store) (a : Author) : Nat :=
  (authorBooks s a).length

/-- Serialize an author in detail context. -/
def serializeAuthorDetail (s : Store) (a : Author) : AuthorDetailOut :=
  { id := a.id, name := a.name, books := authorBooks s a,
    books_count := get_books_count s a }

/-- Declared field list of `AuthorSerializer.Meta.fields`. -/
def authorSerializerFields : List String := ["id", "name", "books"]

/-- Declared field list of `AuthorDetailSerializer.Meta.fields`. -/
def authorDetailSerializerFields : List String := ["id", "name", "books", "books_count"]

/-- Declared default ordering of the Book model
(`Book.Meta.ordering = ['-publication_year', 'title']`). -/
def bookMetaOrdering : List String := ["-publication_year", "title"]

/-! ### Seed data used by the repository's tests -/

/-- Seed author 1. -/
def seedRowling : Author := { id := 1, name := "J.K. Rowling" }

/-- Seed author 2. -/
def seedTolkien : Author := { id := 2, name := "J.R.R. Tolkien" }

/-- Seed book: Rowling, 1997. -/
def seedBook1 : Book :=
  { id := 1, title := "Harry Potter and the Philosophers Stone",
    publication_year := 1997, author := 1 }

/-- Seed book: Rowling, 1998. -/
def seedBook2 : Book :=
  { id := 2, title := "Harry Potter and the Chamber of Secrets",
    publication_year := 1998, author := 1 }

/-- Seed book: Tolkien, 1937. -/
def seedBook3 : Book :=
  { id := 3, title := "The Hobbit", publication_year := 1937, author := 2 }

/-- Seed book: Tolkien, 1954. -/
def seedBook4 : Book :=
  { id := 4, title := "The Lord of the Rings", publication_year := 1954, author := 2 }

/-- The 4-book seed store of the repository's test suite. -/
def seedStore : Store :=
  { authors := [seedRowling, seedTolkien],
    books := [seedBook1, seedBook2, seedBook3, seedBook4] }

/-! ### Shared helper lemmas -/

/-- The book list is a permutation of the filtered book records. -/
theorem bookListGet_perm (s : Store) (q : ListQuery) :
    (bookListGet s q).Perm
      ((s.books.filter (fun b => matchesFilterSet s q.filters b)).filter
        (fun b => matchesSearch s q.search b)) :=
  List.perm_insertionSort _ _

/-- Membership in the book list response is membership in the store plus
the filter and search predicates. -/
theorem mem_bookListGet (s : Store) (q : ListQuery) (b : Book) :
    b ∈ bookListGet s q ↔
      b ∈ s.books ∧ matchesFilterSet s q.filters b = true ∧
        matchesSearch s q.search b = true := by
  rw [(bookListGet_perm s q).mem_iff]
  simp only [List.mem_filter, and_assoc, and_comm, and_left_comm]


/-! ### C1 -/

/-- C1 (counterexample): the claim as stated is false at the concrete
current year 2026 and payload year 2027 — the serializer rejection is
field-scoped under `publication_year`, but its message is the f-string
"Publication year cannot be in the future. Current year is 2026.", not the
claimed "publication_year cannot be in the future". -/
theorem c1_counterexample :
    validate_publication_year 2026 2027 = Except.error (futureMsg 2026) ∧
    bookFieldErrors 2026 seedStore
        { title := "B", publication_year := 2027, author := 1 } =
      [("publication_year", [futureMsg 2026])] ∧
    futureMsg 2026 =
      "Publication year cannot be in the future. Current year is 2026." ∧
    futureMsg 2026 ≠ "publication_year cannot be in the future" := by
  refine ⟨rfl, by decide, by decide, by decide⟩

/-- C1 (amended): at the serializer level, a payload whose
`publication_year` exceeds the current year is rejected with a
field-scoped error under the key `publication_year` with message
"Publication year cannot be in the future. Current year is {Y}."; a value
at most the current year is accepted unchanged, and a payload that passes
full validation has `publication_year` at most the current year. The
claimed 400 HTTP response itself never occurs in the program: the class
body of the first view class references `DjangoFilterBackend`, which the
module's own imports leave unbound, so api.views fails to import and the
create endpoint is never defined. -/
theorem c1_amended :
    (∀ y v : Int, v > y →
      validate_publication_year y v = Except.error (futureMsg y)) ∧
    (∀ y v : Int, v ≤ y → validate_publication_year y v = Except.ok v) ∧
    (∀ (y : Int) (s : Store) (p : BookPayload), p.publication_year > y →
      ("publication_year", [futureMsg y]) ∈ bookFieldErrors y s p) ∧
    (∀ (y : Int) (s : Store) (p : BookPayload),
      (bookFieldErrors y s p).isEmpty = true → p.publication_year ≤ y) ∧
    "DjangoFilterBackend" ∈ bookListViewReferencedNames ∧
    "DjangoFilterBackend" ∉ viewsModuleBindings := by
  refine ⟨?_, ?_, ?_, ?_, by decide, by decide⟩
  · intro y v h
    simp [validate_publication_year, h]
  · intro y v h
    simp [validate_publication_year, not_lt_of_le h]
  · intro y s p hgt
    have hv : validate_publication_year y p.publication_year =
        Except.error (futureMsg y) := by
      simp [validate_publication_year, hgt]
    simp only [bookFieldErrors, hv, List.mem_append, List.mem_singleton]
    tauto
  · intro y s p hemp
    by_contra hgt
    push_neg at hgt
    have hv : validate_publication_year y p.publication_year =
        Except.error (futureMsg y) := by
      simp [validate_publication_year, hgt]
    rw [List.isEmpty_iff] at hemp
    have hne : (bookFieldErrors y s p) ≠ [] := by
      simp only [bookFieldErrors, hv, ne_eq, List.append_eq_nil]
      tauto
    exact hne hemp

/-- C1 (witness for the amended theorem): the rejection conjuncts applied
at the concrete current year 2026 and payload year 2027. -/
theorem c1_amended_witness :
    validate_publication_year 2026 2027 = Except.error (futureMsg 2026) ∧
    ("publication_year", [futureMsg 2026]) ∈
      bookFieldErrors 2026 seedStore
        { title := "B", publication_year := 2027, author := 1 } :=
  ⟨c1_amended.1 2026 2027 (by decide),
   c1_amended.2.2.1 2026 seedStore
     { title := "B", publication_year := 2027, author := 1 } (by decide)⟩

/-! ### C2 -/

/-- C2 (code bug): the declared permission configuration of every write
view (`IsAuthenticated` on the book create/update/delete views and on the
author write methods) answers every unauthenticated write — POST, PUT,
PATCH or DELETE, whatever its payload — with status 403, a `detail` field
and an untouched store, exactly as the claim and the repository's own
tests state. But no write view is ever defined: api.views aborts at import
because its first class body references the unbound `DjangoFilterBackend`,
so a real unauthenticated write receives a server error instead of 403. -/
theorem c2_unauthenticated_write_bug :
    (∀ (y : Int) (r : WriteReq) (s : Store),
      handleWrite false y r s = (forbiddenResp, s) ∧
      (handleWrite false y r s).1.status = 403 ∧
      ("detail", ["Authentication credentials were not provided."]) ∈
        (handleWrite false y r s).1.body ∧
      (handleWrite false y r s).2 = s) ∧
    "DjangoFilterBackend" ∈ bookListViewReferencedNames ∧
    "DjangoFilterBackend" ∉ viewsModuleBindings ∧
    viewsModuleClasses.head? = some "BookListView" ∧
    "BookCreateView" ∈ viewsModuleClasses ∧
    "BookUpdateView" ∈ viewsModuleClasses ∧
    "BookDeleteView" ∈ viewsModuleClasses := by
  refine ⟨?_, by decide, by decide, rfl, by decide, by decide, by decide⟩
  intro y r s
  exact ⟨rfl, rfl, List.mem_singleton.mpr rfl, rfl⟩

/-! ### C3 -/

/-- C3: deleting an Author cascades — a book is in the store after
`deleteAuthor` exactly when it was there before and references a different
author (so every book of the deleted author is absent and every other book
is untouched); the authenticated DELETE handler performs exactly this
cascade whenever the author exists. -/
theorem c3_cascade_delete (aid : Nat) (s : Store) :
    (∀ b : Book, b ∈ (deleteAuthor aid s).books ↔ b ∈ s.books ∧ b.author ≠ aid) ∧
    (∀ a : Author, a ∈ (deleteAuthor aid s).authors ↔ a ∈ s.authors ∧ a.id ≠ aid) ∧
    (∀ y : Int, (s.authors.find? (fun a => a.id = aid)).isSome = true →
      (handleWrite true y (WriteReq.authorDelete aid) s).2 = deleteAuthor aid s ∧
      (handleWrite true y (WriteReq.authorDelete aid) s).1.status = 204) := by
  refine ⟨?_, ?_, ?_⟩
  · intro b
    simp [deleteAuthor, List.mem_filter]
  · intro a
    simp [deleteAuthor, List.mem_filter]
  · intro y hfind
    rcases h : s.authors.find? (fun a => a.id = aid) with _ | a
    · rw [h] at hfind; simp at hfind
    · have hw : handleWrite true y (WriteReq.authorDelete aid) s =
          performWrite y (WriteReq.authorDelete aid) s := rfl
      rw [hw]
      refine ⟨?_, ?_⟩ <;> simp [performWrite, h]

/-- C3 (witness): deleting seed author 1 from the seed store removes
exactly the two Rowling books and keeps the Tolkien ones. -/
theorem c3_cascade_delete_witness :
    (seedBook1 ∈ (deleteAuthor 1 seedStore).books ↔
      seedBook1 ∈ seedStore.books ∧ seedBook1.author ≠ 1) ∧
    (handleWrite true 2026 (WriteReq.authorDelete 1) seedStore).2 =
      deleteAuthor 1 seedStore :=
  ⟨(c3_cascade_delete 1 seedStore).1 seedBook1,
   ((c3_cascade_delete 1 seedStore).2.2 2026 (by decide)).1⟩

/-! ### C10 -/

/-- C10: the publication-year validation has no lower bound — it returns
the value unchanged exactly when the value is at most the current year
(zero and negative years included), and rejects exactly when the value
strictly exceeds the current year. -/
theorem c10_no_lower_bound :
    (∀ y v : Int, validate_publication_year y v = Except.ok v ↔ v ≤ y) ∧
    (∀ y v : Int, v > y →
      validate_publication_year y v = Except.error (futureMsg y)) ∧
    validate_publication_year 2026 0 = Except.ok 0 ∧
    validate_publication_year 2026 (-500) = Except.ok (-500) ∧
    validate_publication_year 2026 2026 = Except.ok 2026 ∧
    validate_publication_year 2026 2027 = Except.error (futureMsg 2026) := by
  refine ⟨?_, ?_, rfl, rfl, rfl, rfl⟩
  · intro y v
    constructor
    · intro h
      by_contra hgt
      push_neg at hgt
      simp [validate_publication_year, hgt] at h
    · intro hle
      simp [validate_publication_year, not_lt_of_le hle]
  · intro y v hgt
    simp [validate_publication_year, hgt]

/-- C10 (witness): instantiation of the universally quantified part at a
negative year. -/
theorem c10_no_lower_bound_witness :
    validate_publication_year 2026 (-3) = Except.ok (-3) ↔ (-3 : Int) ≤ 2026 :=
  c10_no_lower_bound.1 2026 (-3)

/-! ### C9 -/

/-- C9: the detail-context Author representation carries the read-only
computed field `books_count`, equal to the number of Book records owned by
the author, beside `id`, `name` and the nested `books`; the list/create
representation carries exactly `id`, `name` and `books` and no
`books_count`. -/
theorem c9_author_representations (s : Store) (a : Author) :
    (serializeAuthorDetail s a).books_count =
      (s.books.filter (fun b => b.author = a.id)).length ∧
    (serializeAuthorDetail s a).id = a.id ∧
    (serializeAuthorDetail s a).name = a.name ∧
    (serializeAuthorDetail s a).books = authorBooks s a ∧
    (serializeAuthor s a).id = a.id ∧
    (serializeAuthor s a).name = a.name ∧
    (serializeAuthor s a).books = authorBooks s a ∧
    authorSerializerFields = ["id", "name", "books"] ∧
    authorDetailSerializerFields = ["id", "name", "books", "books_count"] ∧
    "books_count" ∉ authorSerializerFields := by
  refine ⟨?_, rfl, rfl, rfl, rfl, rfl, rfl, rfl, rfl, by decide⟩
  have hperm : (authorBooks s a).Perm (s.books.filter (fun b => b.author = a.id)) :=
    List.perm_insertionSort _ _
  simpa [serializeAuthorDetail, get_books_count] using hperm.length_eq

/-! ### C4 -/

/-- C4 (code bug): the declared `BookFilter`/`BookListView` configuration
returns, for `title=v`, exactly the books whose title contains `v`
case-insensitively — on the seeded 4-book store `?title=harry` yields
exactly the two matching books, as the claim states — but the list
endpoint never exists: the `filter_backends` line of `BookListView`
references `DjangoFilterBackend`, which the module imports never bind, so
the api.views module raises `NameError` when loaded and a real GET
receives a server error instead of the filtered list. -/
theorem c4_title_filter_bug :
    (∀ (s : Store) (v : String) (b : Book),
      b ∈ bookListGet s { filters := { title := some v } } ↔
        b ∈ s.books ∧ icontains b.title v = true) ∧
    bookListGet seedStore { filters := { title := some "harry" } } =
      [seedBook2, seedBook1] ∧
    "DjangoFilterBackend" ∈ bookListViewReferencedNames ∧
    "DjangoFilterBackend" ∉ viewsModuleBindings := by
  refine ⟨?_, by decide, by decide, by decide⟩
  intro s v b
  rw [mem_bookListGet]
  simp [matchesFilterSet, matchesSearch, optCheck]

/-! ### C5 -/

/-- C5 (code bug): the declared filter set treats `publication_year__gte`
and `publication_year__lte` as inclusive bounds composed by AND, so the
declared list configuration returns exactly the books with year in
`[lo, hi]` — on the seed years 1997/1998/1937/1954 the range [1990, 2000]
yields exactly the 1997 and 1998 books, as the claim states — but the list
endpoint never exists (api.views raises `NameError` at import on the
unbound `DjangoFilterBackend`), so the claimed responses never occur. -/
theorem c5_year_range_filter_bug :
    (∀ (s : Store) (lo hi : Int) (b : Book),
      b ∈ bookListGet s
          { filters := { publication_year__gte := some lo,
                         publication_year__lte := some hi } } ↔
        b ∈ s.books ∧ lo ≤ b.publication_year ∧ b.publication_year ≤ hi) ∧
    bookListGet seedStore
        { filters := { publication_year__gte := some 1990,
                       publication_year__lte := some 2000 } } =
      [seedBook2, seedBook1] ∧
    "DjangoFilterBackend" ∈ bookListViewReferencedNames ∧
    "DjangoFilterBackend" ∉ viewsModuleBindings := by
  refine ⟨?_, by decide, by decide, by decide⟩
  intro s lo hi b
  rw [mem_bookListGet]
  simp [matchesFilterSet, matchesSearch, optCheck, and_assoc]

/-! ### C8 -/

/-- Store exhibiting the term-splitting behaviour of the search backend. -/
def searchStore : Store :=
  { authors := [{ id := 1, name := "Tolkien" }],
    books := [{ id := 1, title := "Harry", publication_year := 1937, author := 1 }] }

/-- C8 (code bug): the framework search backend declared by
`search_fields = ['title', 'author__name']` splits the search string on
whitespace and commas and requires every term to match the title OR the
author name case-insensitively, AND-composed with the other filters. For a
single-term string this is the claimed OR predicate, but for
`search=harry tolkien` the declared configuration would return a book
titled "Harry" by author "Tolkien" although neither field contains the
whole string, so the claim overstates even the declared semantics; and no
search-enabled endpoint exists at all, because api.views aborts at import
on the unbound `DjangoFilterBackend`, so a real GET receives a server
error. -/
theorem c8_search_filter_bug :
    (∀ (s : Store) (p : BookFilterParams) (v : String) (b : Book),
      b ∈ bookListGet s { filters := p, search := some v } ↔
        b ∈ s.books ∧ matchesFilterSet s p b = true ∧
        ∀ t ∈ searchTerms v,
          (icontains b.title t || icontains (authorName s b.author) t) = true) ∧
    searchTerms "harry" = ["harry"] ∧
    searchTerms "harry tolkien" = ["harry", "tolkien"] ∧
    bookListGet searchStore { search := some "harry tolkien" } =
      [{ id := 1, title := "Harry", publication_year := 1937, author := 1 }] ∧
    icontains "Harry" "harry tolkien" = false ∧
    icontains (authorName searchStore 1) "harry tolkien" = false ∧
    "DjangoFilterBackend" ∈ bookListViewReferencedNames ∧
    "DjangoFilterBackend" ∉ viewsModuleBindings := by
  refine ⟨?_, by decide, by decide, by decide, by decide, by decide, by decide, by decide⟩
  intro s p v b
  rw [mem_bookListGet]
  simp [matchesSearch, List.all_eq_true]

/-! ### Ordering infrastructure -/

/-- The executable lexicographic comparison on character lists agrees with
the lexicographic order relation. -/
theorem charsLt_iff_lex (as bs : List Char) :
    charsLt as bs = true ↔ List.Lex (· < ·) as bs := by
  induction as generalizing bs with
  | nil =>
    cases bs with
    | nil => simp [charsLt]
    | cons b bs =>
      simp only [charsLt]
      exact ⟨fun _ => List.Lex.nil, fun _ => trivial⟩
  | cons a as ih =>
    cases bs with
    | nil => simp [charsLt]
    | cons b bs =>
      simp only [charsLt, Bool.or_eq_true, Bool.and_eq_true, decide_eq_true_iff, ih]
      constructor
      · rintro (h | ⟨rfl, h⟩)
        · exact List.Lex.rel h
        · exact List.Lex.cons h
      · intro h
        cases h with
        | cons h => exact Or.inr ⟨rfl, h⟩
        | rel h => exact Or.inl h

/-- The executable comparison on the character data of strings agrees with
the string order. -/
theorem charsLt_iff_lt (s t : String) : charsLt s.data t.data = true ↔ s < t := by
  rw [String.lt_iff_toList_lt]
  exact charsLt_iff_lex s.data t.data

/-- Comparison under the single ordering term `title` is the string order
on titles. -/
theorem booksLe_title_iff (s : Store) (b b' : Book) :
    booksLe s ["title"] b b' = true ↔ b.title ≤ b'.title := by
  have hlt : termLt s "title" b b' =
      (charsLt b.title.data b'.title.data ||
        (decide (b.title.data = b'.title.data) && decide ((0 : Int) < 0))) := rfl
  have heq : termEq s "title" b b' =
      decide ((b.title.data, (0 : Int)) = (b'.title.data, (0 : Int))) := rfl
  show (termLt s "title" b b' || (termEq s "title" b b' && true)) = true ↔ _
  rw [hlt, heq, le_iff_lt_or_eq]
  simp only [Bool.and_true, Bool.or_eq_true, Bool.and_eq_true, decide_eq_true_iff,
    Prod.mk.injEq, and_true, charsLt_iff_lt]
  constructor
  · rintro ((h | ⟨_, h0⟩) | h)
    · exact Or.inl h
    · exact absurd h0 (by norm_num)
    · exact Or.inr (by
        have := congrArg String.mk h
        simpa using this)
  · rintro (h | h)
    · exact Or.inl (Or.inl h)
    · exact Or.inr (by rw [h])

/-- Comparison under the single ordering term `-title` is the reversed
string order on titles. -/
theorem booksLe_neg_title_iff (s : Store) (b b' : Book) :
    booksLe s ["-title"] b b' = true ↔ b'.title ≤ b.title := by
  have hlt : termLt s "-title" b b' =
      (charsLt b'.title.data b.title.data ||
        (decide (b'.title.data = b.title.data) && decide ((0 : Int) < 0))) := rfl
  have heq : termEq s "-title" b b' =
      decide ((b.title.data, (0 : Int)) = (b'.title.data, (0 : Int))) := rfl
  show (termLt s "-title" b b' || (termEq s "-title" b b' && true)) = true ↔ _
  rw [hlt, heq, le_iff_lt_or_eq]
  simp only [Bool.and_true, Bool.or_eq_true, Bool.and_eq_true, decide_eq_true_iff,
    Prod.mk.injEq, and_true, charsLt_iff_lt]
  constructor
  · rintro ((h | ⟨_, h0⟩) | h)
    · exact Or.inl h
    · exact absurd h0 (by norm_num)
    · exact Or.inr (by
        have := congrArg String.mk h.symm
        simpa using this)
  · rintro (h | h)
    · exact Or.inl (Or.inl h)
    · exact Or.inr (by rw [h])

/-- Books surviving the filter and search backends of a list request with
no filter and no search parameter. -/
def filteredL (s : Store) : List Book :=
  (s.books.filter (fun b => matchesFilterSet s {} b)).filter
    (fun b => matchesSearch s none b)

/-- Unfolding of the list endpoint for an ordering-only query. -/
theorem bookListGet_ordering_eq (s : Store) (o : Option String) :
    bookListGet s { ordering := o } =
      sortByTerms s (parseOrderingTerms o) (filteredL s) := rfl

/-- Parsing the ordering parameter `title`. -/
theorem parse_title : parseOrderingTerms (some "title") = ["title"] := by decide

/-- Parsing the ordering parameter `-title`. -/
theorem parse_neg_title : parseOrderingTerms (some "-title") = ["-title"] := by decide

/-- Sorting by the single term `title` yields a title sequence that is
sorted ascending. -/
theorem sortByTerms_title_sorted (s : Store) (bs : List Book) :
    ((sortByTerms s ["title"] bs).map Book.title).Sorted (· ≤ ·) := by
  haveI : IsTotal Book (fun b b' => booksLe s ["title"] b b' = true) :=
    ⟨fun a b => by
      simp only [booksLe_title_iff]
      exact le_total a.title b.title⟩
  haveI : IsTrans Book (fun b b' => booksLe s ["title"] b b' = true) :=
    ⟨fun a b c hab hbc => by
      simp only [booksLe_title_iff] at hab hbc ⊢
      exact le_trans hab hbc⟩
  have hs := List.sorted_insertionSort (fun b b' => booksLe s ["title"] b b' = true) bs
  rw [List.Sorted, List.pairwise_map]
  exact hs.imp (fun hab => (booksLe_title_iff s _ _).1 hab)

/-- Sorting by the single term `-title` yields a title sequence that is
sorted descending. -/
theorem sortByTerms_neg_title_sorted (s : Store) (bs : List Book) :
    ((sortByTerms s ["-title"] bs).map Book.title).Sorted (fun t t' => t' ≤ t) := by
  haveI : IsTotal Book (fun b b' => booksLe s ["-title"] b b' = true) :=
    ⟨fun a b => by
      simp only [booksLe_neg_title_iff]
      exact le_total b.title a.title⟩
  haveI : IsTrans Book (fun b b' => booksLe s ["-title"] b b' = true) :=
    ⟨fun a b c hab hbc => by
      simp only [booksLe_neg_title_iff] at hab hbc ⊢
      exact le_trans hbc hab⟩
  have hs := List.sorted_insertionSort (fun b b' => booksLe s ["-title"] b b' = true) bs
  rw [List.Sorted, List.pairwise_map]
  exact hs.imp (fun hab => (booksLe_neg_title_iff s _ _).1 hab)

/-! ### C7 -/

/-- C7 (code bug): the view default `ordering = ['title']` means a
no-parameter GET of the declared list configuration returns a permutation
of the store with the title sequence ascending — overriding the Book
model's own `Meta.ordering = ['-publication_year', 'title']`, as the seed
store shows — but the endpoint is dead: api.views never imports (the same
class body references the unbound `DjangoFilterBackend`), so a real GET
receives a server error rather than the sorted list. -/
theorem c7_default_ordering_bug :
    (∀ s : Store, (bookListGet s {}).Perm s.books) ∧
    (∀ s : Store, ((bookListGet s {}).map Book.title).Sorted (· ≤ ·)) ∧
    bookListGet seedStore {} = [seedBook2, seedBook1, seedBook3, seedBook4] ∧
    bookMetaOrdering = ["-publication_year", "title"] ∧
    sortByTerms seedStore bookMetaOrdering seedStore.books =
      [seedBook2, seedBook1, seedBook4, seedBook3] ∧
    bookListGet seedStore {} ≠
      sortByTerms seedStore bookMetaOrdering seedStore.books ∧
    "DjangoFilterBackend" ∈ bookListViewReferencedNames ∧
    "DjangoFilterBackend" ∉ viewsModuleBindings := by
  refine ⟨?_, ?_, by decide, rfl, by decide, by decide, by decide, by decide⟩
  · intro s
    have h := bookListGet_perm s {}
    simpa [matchesFilterSet, matchesSearch, optCheck] using h
  · intro s
    exact sortByTerms_title_sorted s (filteredL s)

/-! ### C6 -/

/-- Store with two books sharing one title, exhibiting the tie behaviour of
the ordering backend. -/
def dupStore : Store :=
  { authors := [{ id := 1, name := "A" }],
    books := [{ id := 1, title := "Same", publication_year := 2000, author := 1 },
              { id := 2, title := "Same", publication_year := 2001, author := 1 }] }

/-- C6 (code bug): under the declared ordering configuration,
`?ordering=-title` returns the same multiset of books as `?ordering=title`
with the title sequence descending instead of ascending, and whenever the
returned titles are pairwise distinct (the seed store, for instance) the
two sequences are exact reverses, as the claim states; ties keep their
relative order under both directions, so on a store with two books of one
title the sequences are equal, not reversed. None of this is ever served:
api.views raises `NameError` at import on the unbound
`DjangoFilterBackend` in the very class body that declares the ordering,
so a real GET receives a server error. -/
theorem c6_ordering_reversal_bug :
    (∀ s : Store, (bookListGet s { ordering := some "-title" }).Perm
        (bookListGet s { ordering := some "title" })) ∧
    (∀ s : Store,
      ((bookListGet s { ordering := some "title" }).map Book.title).Nodup →
      bookListGet s { ordering := some "-title" } =
        (bookListGet s { ordering := some "title" }).reverse) ∧
    (∀ s : Store,
      ((bookListGet s { ordering := some "title" }).map Book.title).Sorted (· ≤ ·)) ∧
    (∀ s : Store,
      ((bookListGet s { ordering := some "-title" }).map Book.title).Sorted
        (fun t t' => t' ≤ t)) ∧
    bookListGet seedStore { ordering := some "-title" } =
      (bookListGet seedStore { ordering := some "title" }).reverse ∧
    bookListGet dupStore { ordering := some "title" } = dupStore.books ∧
    bookListGet dupStore { ordering := some "-title" } = dupStore.books ∧
    bookListGet dupStore { ordering := some "-title" } ≠
      (bookListGet dupStore { ordering := some "title" }).reverse ∧
    "DjangoFilterBackend" ∈ bookListViewReferencedNames ∧
    "DjangoFilterBackend" ∉ viewsModuleBindings := by
  have heq1 : ∀ s : Store, bookListGet s { ordering := some "title" } =
      sortByTerms s ["title"] (filteredL s) := by
    intro s
    rw [bookListGet_ordering_eq, parse_title]
  have heq2 : ∀ s : Store, bookListGet s { ordering := some "-title" } =
      sortByTerms s ["-title"] (filteredL s) := by
    intro s
    rw [bookListGet_ordering_eq, parse_neg_title]
  have hpermA : ∀ s : Store, (sortByTerms s ["title"] (filteredL s)).Perm (filteredL s) :=
    fun s => List.perm_insertionSort _ _
  have hpermD : ∀ s : Store, (sortByTerms s ["-title"] (filteredL s)).Perm (filteredL s) :=
    fun s => List.perm_insertionSort _ _
  refine ⟨?_, ?_, ?_, ?_, by decide, by decide, by decide, by decide, by decide, by decide⟩
  · intro s
    rw [heq1, heq2]
    exact (hpermD s).trans (hpermA s).symm
  · intro s hnd
    rw [heq1] at hnd
    rw [heq1, heq2]
    haveI : IsTrans Book (fun b b' : Book => b'.title < b.title) :=
      ⟨fun _ _ _ h1 h2 => lt_trans h2 h1⟩
    haveI : IsAntisymm Book (fun b b' : Book => b'.title < b.title) :=
      ⟨fun _ _ h1 h2 => absurd h1 (lt_asymm h2)⟩
    have hndL : ((filteredL s).map Book.title).Nodup :=
      (((hpermA s).map Book.title).nodup_iff).1 hnd
    have hndD : ((sortByTerms s ["-title"] (filteredL s)).map Book.title).Nodup :=
      (((hpermD s).map Book.title).nodup_iff).2 hndL
    have hdle : (sortByTerms s ["-title"] (filteredL s)).Pairwise
        (fun b b' => b'.title ≤ b.title) := by
      haveI : IsTotal Book (fun b b' => booksLe s ["-title"] b b' = true) :=
        ⟨fun a b => by
          simp only [booksLe_neg_title_iff]
          exact le_total b.title a.title⟩
      haveI : IsTrans Book (fun b b' => booksLe s ["-title"] b b' = true) :=
        ⟨fun a b c hab hbc => by
          simp only [booksLe_neg_title_iff] at hab hbc ⊢
          exact le_trans hbc hab⟩
      exact (List.sorted_insertionSort
        (fun b b' => booksLe s ["-title"] b b' = true) (filteredL s)).imp
        (fun h => (booksLe_neg_title_iff s _ _).1 h)
    have hdne : (sortByTerms s ["-title"] (filteredL s)).Pairwise
        (fun b b' => b.title ≠ b'.title) := List.pairwise_map.mp hndD
    have hdgt : (sortByTerms s ["-title"] (filteredL s)).Pairwise
        (fun b b' : Book => b'.title < b.title) :=
      (List.pairwise_and_iff.mpr ⟨hdle, hdne⟩).imp
        (fun h => lt_of_le_of_ne h.1 (Ne.symm h.2))
    have hale : (sortByTerms s ["title"] (filteredL s)).Pairwise
        (fun b b' => b.title ≤ b'.title) := by
      haveI : IsTotal Book (fun b b' => booksLe s ["title"] b b' = true) :=
        ⟨fun a b => by
          simp only [booksLe_title_iff]
          exact le_total a.title b.title⟩
      haveI : IsTrans Book (fun b b' => booksLe s ["title"] b b' = true) :=
        ⟨fun a b c hab hbc => by
          simp only [booksLe_title_iff] at hab hbc ⊢
          exact le_trans hab hbc⟩
      exact (List.sorted_insertionSort
        (fun b b' => booksLe s ["title"] b b' = true) (filteredL s)).imp
        (fun h => (booksLe_title_iff s _ _).1 h)
    have hrle : (sortByTerms s ["title"] (filteredL s)).reverse.Pairwise
        (fun b b' => b'.title ≤ b.title) := List.pairwise_reverse.mpr hale
    have hndR : ((sortByTerms s ["title"] (filteredL s)).reverse.map Book.title).Nodup := by
      rw [List.map_reverse, List.nodup_reverse]
      exact hnd
    have hrne : (sortByTerms s ["title"] (filteredL s)).reverse.Pairwise
        (fun b b' => b.title ≠ b'.title) := List.pairwise_map.mp hndR
    have hrgt : (sortByTerms s ["title"] (filteredL s)).reverse.Pairwise
        (fun b b' : Book => b'.title < b.title) :=
      (List.pairwise_and_iff.mpr ⟨hrle, hrne⟩).imp
        (fun h => lt_of_le_of_ne h.1 (Ne.symm h.2))
    have hperm : (sortByTerms s ["-title"] (filteredL s)).Perm
        (sortByTerms s ["title"] (filteredL s)).reverse :=
      ((hpermD s).trans (hpermA s).symm).trans
        (sortByTerms s ["title"] (filteredL s)).reverse_perm.symm
    exact List.eq_of_perm_of_sorted hperm hdgt hrgt
  · intro s
    rw [heq1]
    exact sortByTerms_title_sorted s (filteredL s)
  · intro s
    rw [heq2]
    exact sortByTerms_neg_title_sorted s (filteredL s)

/-- C6 (witness): on the seed store, whose titles are pairwise distinct,
the declared configuration gives descending order as the exact reverse of
ascending order. -/
theorem c6_ordering_reversal_bug_witness :
    bookListGet seedStore { ordering := some "-title" } =
      (bookListGet seedStore { ordering := some "title" }).reverse :=
  c6_ordering_reversal_bug.2.1 seedStore (by decide)
